import Mathlib

/-
Shallow embedding of the certificate-scoped document signing and
verification engine of the DocumentSigner component
(src/src/components/ChatScreen.tsx, lines 432-850).

The component-level control flow (verifyDocument, signDocument,
handleFileSelect, handleSignatureFileSelect) is embedded directly from
the source.  The cryptographic and codec collaborators that the
component imports (DigitalSigner.signDocument, createSignatureFile,
parseSignatureFile, verifyDocumentSignature from ../utils/signing, and
verifyCertificate / importPublicKey from ../context/CryptoContext) are
not present under src/, so they are modelled from the spec, as marked
in their doc comments.  Cryptographic primitives (SHA-256, ECDSA
sign/verify, public-key parsing) are abstracted into a Crypto record of
function parameters; a concrete executable instance (toyCrypto) is used
for witnesses and counterexamples.
-/

/-- A byte sequence; each entry models one byte of a document,
signature or key encoding. -/
abbrev Bytes := List Nat

/-- The Certificate record of the data model: subject label, raw
public-key bytes, and the validity window in epoch milliseconds. -/
structure Certificate where
  subject : String
  publicKey : Bytes
  issuedAt : Int
  expiresAt : Int
deriving DecidableEq

/-- The DocumentSignature record: hex document hash, signature bytes,
the signer certificate and the signing timestamp. -/
structure DocumentSignature where
  documentHash : String
  signature : Bytes
  certificate : Certificate
  timestamp : Int
deriving DecidableEq

/-- JSON-like values of the signature file format.  Base64-encoded byte
strings of the wire format are modelled as a distinguished byte-string
node (the base64 layer is a bijection between byte sequences and their
string encodings and is not re-modelled). -/
inductive Json where
  | str : String → Json
  | num : Int → Json
  | bytes : Bytes → Json
  | obj : List (String × Json) → Json

/-- The abstract cryptographic provider: SHA-256 hashing to a hex
string, ECDSA signing of a hash under a private key, ECDSA
verification under a public key, and parsing of raw public-key bytes
(importPublicKey fails exactly when parsing fails). -/
structure Crypto where
  hashFn : Bytes → String
  signFn : Nat → String → Bytes
  verifyFn : Nat → String → Bytes → Bool
  parsePubFn : Bytes → Option Nat

/-- Look up a key in a JSON object field list (first match). -/
def lookupField (fields : List (String × Json)) (key : String) : Option Json :=
  match fields with
  | [] => none
  | (k, v) :: rest => if k == key then some v else lookupField rest key

/-- Project a JSON string node. -/
def asStr : Json → Option String
  | Json.str s => some s
  | _ => none

/-- Project a JSON number node. -/
def asNum : Json → Option Int
  | Json.num n => some n
  | _ => none

/-- Project a JSON byte-string node. -/
def asBytes : Json → Option Bytes
  | Json.bytes b => some b
  | _ => none

/-- Lower-case hex digit test: 0-9 or a-f. -/
def isHexChar (ch : Char) : Bool :=
  ch.isDigit || (97 ≤ ch.toNat && ch.toNat ≤ 102)

/-- Exactly 64 lower-case hex characters. -/
def isHex64 (s : String) : Bool :=
  s.length == 64 && s.toList.all isHexChar

namespace DigitalSigner

/-- Modelled from the spec: DigitalSigner.signDocument
(src/utils/signing is absent from src/).  Per spec section 4.4: hash the
document, ECDSA-sign the hash with the private key, and emit the full
four-field record with the certificate and the current timestamp. -/
def signDocument (c : Crypto) (doc : Bytes) (privateKey : Nat)
    (certificate : Certificate) (now : Int) : DocumentSignature :=
  { documentHash := c.hashFn doc
    signature := c.signFn privateKey (c.hashFn doc)
    certificate := certificate
    timestamp := now }

/-- Modelled from the spec: DigitalSigner.createSignatureFile
(src/utils/signing is absent from src/).  Canonical encoding of a
DocumentSignature per spec section 6: documentHash as hex string,
signature as (base64) bytes, certificate as a nested object with its
four fields, timestamp as integer epoch-ms. -/
def createSignatureFile (sig : DocumentSignature) : Json :=
  Json.obj
    [("documentHash", Json.str sig.documentHash),
     ("signature", Json.bytes sig.signature),
     ("certificate", Json.obj
       [("subject", Json.str sig.certificate.subject),
        ("publicKey", Json.bytes sig.certificate.publicKey),
        ("issuedAt", Json.num sig.certificate.issuedAt),
        ("expiresAt", Json.num sig.certificate.expiresAt)]),
     ("timestamp", Json.num sig.timestamp)]

/-- Modelled from the spec: decoding of the nested certificate object;
fails when a field is missing or has the wrong type. -/
def parseCertificate (j : Json) : Option Certificate :=
  match j with
  | Json.obj fields =>
    (lookupField fields "subject").bind (fun js =>
    (asStr js).bind (fun subject =>
    (lookupField fields "publicKey").bind (fun jk =>
    (asBytes jk).bind (fun publicKey =>
    (lookupField fields "issuedAt").bind (fun ji =>
    (asNum ji).bind (fun issuedAt =>
    (lookupField fields "expiresAt").bind (fun je =>
    (asNum je).map (fun expiresAt =>
      { subject := subject, publicKey := publicKey,
        issuedAt := issuedAt, expiresAt := expiresAt }))))))))
  | _ => none

/-- Modelled from the spec: DigitalSigner.parseSignatureFile
(src/utils/signing is absent from src/).  Per spec section 4.5: decode
fails (returns none, which the caller observes as a falsy parse result)
when any required field is missing, a field has the wrong type, or the
documentHash is not exactly 64 hex characters; it performs no semantic
validation (expiry is checked later by the verifier). -/
def parseSignatureFile (j : Json) : Option DocumentSignature :=
  match j with
  | Json.obj fields =>
    (lookupField fields "documentHash").bind (fun jh =>
    (asStr jh).bind (fun documentHash =>
    if isHex64 documentHash then
      (lookupField fields "signature").bind (fun js =>
      (asBytes js).bind (fun signature =>
      (lookupField fields "certificate").bind (fun jc =>
      (parseCertificate jc).bind (fun certificate =>
      (lookupField fields "timestamp").bind (fun jt =>
      (asNum jt).map (fun timestamp =>
        { documentHash := documentHash, signature := signature,
          certificate := certificate, timestamp := timestamp }))))))
    else none))
  | _ => none

/-- Modelled from the spec: DigitalSigner.verifyDocumentSignature
(src/utils/signing is absent from src/).  Per spec section 4.7 steps
3-4: recompute the document hash, compare it with the embedded hash,
then ECDSA-verify the signature over the recomputed hash; the boolean
conjunction short-circuits, so the public-key operation is not consulted
on a hash mismatch. -/
def verifyDocumentSignature (c : Crypto) (doc : Bytes)
    (sig : DocumentSignature) (publicKey : Nat) : Bool :=
  (c.hashFn doc == sig.documentHash)
    && c.verifyFn publicKey (c.hashFn doc) sig.signature

end DigitalSigner

/-- Modelled from the spec: crypto.verifyCertificate from
CryptoContext (absent from src/).  Per spec section 4.6: structural and
temporal validity as a single boolean — subject non-empty, publicKey
parses as a key of the expected algorithm, and issuedAt <= now <=
expiresAt. -/
def verifyCertificate (c : Crypto) (cert : Certificate) (now : Int) : Bool :=
  (!(cert.subject == "")) && (c.parsePubFn cert.publicKey).isSome
    && decide (cert.issuedAt ≤ now) && decide (now ≤ cert.expiresAt)

/-- Modelled from the spec: crypto.importPublicKey from CryptoContext
(absent from src/).  Imports raw public-key bytes as a key handle;
none models the thrown InvalidKeyEncodingError. -/
def importPublicKey (c : Crypto) (b : Bytes) : Option Nat :=
  c.parsePubFn b

/-- The component state of DocumentSigner that the claims observe:
selected document, selected signature file, displayed signature record,
the nullable boolean verification verdict, and the error message. -/
structure SignerState where
  selectedFile : Option Bytes
  signatureFile : Option Json
  documentSignature : Option DocumentSignature
  verificationResult : Option Bool
  error : String

/-- handleFileSelect (ChatScreen.tsx lines 452-460): when a file is
chosen, store it and reset error, verdict and displayed signature
record; otherwise leave the state unchanged. -/
def handleFileSelect (file : Option Bytes) (s : SignerState) : SignerState :=
  match file with
  | some f =>
    { s with selectedFile := some f, error := "",
             verificationResult := none, documentSignature := none }
  | none => s

/-- handleSignatureFileSelect (ChatScreen.tsx lines 462-468): when a
signature file is chosen, store it and clear the error; the verdict and
the displayed signature record are left untouched. -/
def handleSignatureFileSelect (file : Option Json) (s : SignerState) : SignerState :=
  match file with
  | some f => { s with signatureFile := some f, error := "" }
  | none => s

/-- signDocument (ChatScreen.tsx lines 470-515): guard on the selected
file, then the private key, then the certificate, each failure setting
its error message and producing nothing; on success produce the full
DocumentSignature via DigitalSigner.signDocument, store it, and emit
the encoded signature file for download (the second component). -/
def signDocument (c : Crypto) (privateKey : Option Nat)
    (certificate : Option Certificate) (now : Int) (s : SignerState) :
    SignerState × Option Json :=
  match s.selectedFile with
  | none => ({ s with error := "Please select a file to sign" }, none)
  | some doc =>
    match privateKey with
    | none =>
      ({ s with error := "Signing key not available. Please refresh and try again." }, none)
    | some k =>
      match certificate with
      | none =>
        ({ s with error := "Digital certificate not available. Please ensure you have set a username." }, none)
      | some cert =>
        let sig := DigitalSigner.signDocument c doc k cert now
        ({ s with error := "", documentSignature := some sig },
         some (DigitalSigner.createSignatureFile sig))

/-- verifyDocument (ChatScreen.tsx lines 517-564): guard on both files;
clear the error; parse the signature file (falsy parse result keeps the
verdict and sets the format error); check the certificate (failure sets
the certificate error and a false verdict); import the signer public
key (a thrown InvalidKeyEncodingError is caught by the surrounding
try/catch, which sets the generic error and a false verdict); finally
store the boolean result of DigitalSigner.verifyDocumentSignature as
the verdict together with the parsed signature record. -/
def verifyDocument (c : Crypto) (now : Int) (s : SignerState) : SignerState :=
  match s.selectedFile, s.signatureFile with
  | some doc, some file =>
    let s1 := { s with error := "" }
    match DigitalSigner.parseSignatureFile file with
    | none => { s1 with error := "Invalid signature file format" }
    | some parsedSignature =>
      if verifyCertificate c parsedSignature.certificate now then
        match importPublicKey c parsedSignature.certificate.publicKey with
        | none =>
          { s1 with error := "Failed to verify document. Please check your files and try again.",
                    verificationResult := some false }
        | some signerPublicKey =>
          let isValid := DigitalSigner.verifyDocumentSignature c doc parsedSignature signerPublicKey
          { s1 with verificationResult := some isValid,
                    documentSignature := some parsedSignature }
      else
        { s1 with error := "Invalid or expired certificate",
                  verificationResult := some false }
  | _, _ => { s with error := "Please select both a document and its signature file" }

/-- The component state right after a document and a signature file
have been chosen into an otherwise fresh DocumentSigner. -/
def freshState (doc : Bytes) (file : Json) : SignerState :=
  { selectedFile := some doc, signatureFile := some file,
    documentSignature := none, verificationResult := none, error := "" }

/-- Hex digit of a value below 16, lower case. -/
def hexDigitChar (n : Nat) : Char :=
  if n < 10 then Char.ofNat (48 + n) else Char.ofNat (87 + n)

/-- Fixed-width big-endian hex rendering of a natural number. -/
def toHexFixed : Nat → Nat → List Char
  | 0, _ => []
  | Nat.succ len, v => toHexFixed len (v / 16) ++ [hexDigitChar (v % 16)]

/-- Concrete executable stand-in for SHA-256: a deterministic 64-hex
digest of the byte sequence, used to evaluate the pipeline on concrete
inputs. -/
def toyHash (d : Bytes) : String :=
  String.mk (toHexFixed 64 (d.foldl (fun a b => a * 131 + b + 7) 5))

/-- Concrete executable stand-in for ECDSA signing. -/
def toySign (k : Nat) (h : String) : Bytes :=
  k :: (h.toList.map Char.toNat)

/-- Concrete executable stand-in for ECDSA verification; accepts
exactly the signatures toySign produces under the same key. -/
def toyVerify (p : Nat) (h : String) (s : Bytes) : Bool :=
  s == p :: (h.toList.map Char.toNat)

/-- Concrete executable stand-in for public-key parsing: a well-formed
key encoding is a singleton byte list. -/
def toyParsePub : Bytes → Option Nat
  | [p] => some p
  | _ => none

/-- The concrete crypto provider used by witnesses and
counterexamples. -/
def toyCrypto : Crypto :=
  { hashFn := toyHash, signFn := toySign,
    verifyFn := toyVerify, parsePubFn := toyParsePub }

/-- Decoding a canonically encoded signature record recovers the
record, provided its documentHash is 64 hex characters (which the
hasher guarantees for records produced by signing). -/
theorem parse_create (sig : DocumentSignature)
    (h : isHex64 sig.documentHash = true) :
    DigitalSigner.parseSignatureFile (DigitalSigner.createSignatureFile sig) = some sig := by
  have e : DigitalSigner.parseSignatureFile (DigitalSigner.createSignatureFile sig)
      = if isHex64 sig.documentHash then some sig else none := rfl
  rw [e, if_pos h]

/-- Bytes of the string "hello". -/
def docHello : Bytes := [104, 101, 108, 108, 111]

/-- Bytes of the string "hellp": "hello" with its last byte mutated. -/
def docHellp : Bytes := [104, 101, 108, 108, 112]

/-- Concrete unexpired certificate for witnesses and counterexamples. -/
def certAlice : Certificate :=
  { subject := "alice", publicKey := [1], issuedAt := 0, expiresAt := 1000 }

/-- Concrete signature record over docHello under certAlice. -/
def sigHello : DocumentSignature :=
  { documentHash := toyHash docHello, signature := toySign 1 (toyHash docHello),
    certificate := certAlice, timestamp := 5 }

/-- Encoded signature file for docHello, cryptographically valid. -/
def fileHello : Json := DigitalSigner.createSignatureFile sigHello

/-- Encoded signature file whose embedded signature bytes are garbage
(hash matches docHello, ECDSA check fails). -/
def fileHelloBadSig : Json := DigitalSigner.createSignatureFile
  { documentHash := toyHash docHello, signature := [9, 9],
    certificate := certAlice, timestamp := 5 }

/-- C9: selecting a new document file resets the verdict, the displayed
signature record and the error to the empty state, while selecting a
new signature file clears only the error and leaves a previously
computed verdict and signature record unchanged, so a stale verdict
remains displayed alongside the newly chosen signature file. -/
theorem select_reset_frame (s : SignerState) (f : Bytes) (j : Json) :
    (handleFileSelect (some f) s).verificationResult = none
    ∧ (handleFileSelect (some f) s).documentSignature = none
    ∧ (handleFileSelect (some f) s).selectedFile = some f
    ∧ (handleFileSelect (some f) s).error = ""
    ∧ (handleSignatureFileSelect (some j) s).verificationResult = s.verificationResult
    ∧ (handleSignatureFileSelect (some j) s).documentSignature = s.documentSignature
    ∧ (handleSignatureFileSelect (some j) s).signatureFile = some j
    ∧ (handleSignatureFileSelect (some j) s).error = "" := by
  simp [handleFileSelect, handleSignatureFileSelect]

/-- C1 (amended): verification always lands in one of four observable
outcome forms over a nullable boolean verdict paired with an error
string — parse failure (verdict untouched, format error), certificate
failure (false verdict, certificate error), caught key-import exception
(false verdict, generic error), or a bare boolean verdict with no error
covering Valid, DocumentTampered and SignatureInvalid alike. -/
theorem verification_outcome_forms (c : Crypto) (d : Bytes) (j : Json) (now : Int) :
    ((verifyDocument c now (freshState d j)).verificationResult = none
       ∧ (verifyDocument c now (freshState d j)).error = "Invalid signature file format")
    ∨ ((verifyDocument c now (freshState d j)).verificationResult = some false
       ∧ (verifyDocument c now (freshState d j)).error = "Invalid or expired certificate")
    ∨ ((verifyDocument c now (freshState d j)).verificationResult = some false
       ∧ (verifyDocument c now (freshState d j)).error = "Failed to verify document. Please check your files and try again.")
    ∨ (∃ b : Bool, (verifyDocument c now (freshState d j)).verificationResult = some b
       ∧ (verifyDocument c now (freshState d j)).error = "") := by
  cases hp : DigitalSigner.parseSignatureFile j with
  | none => left; simp [verifyDocument, freshState, hp]
  | some sig =>
    by_cases hc : verifyCertificate c sig.certificate now
    · cases hk : importPublicKey c sig.certificate.publicKey with
      | none =>
        right; right; left
        simp [verifyDocument, freshState, hp, hc, hk]
      | some pk =>
        right; right; right
        exact ⟨DigitalSigner.verifyDocumentSignature c d sig pk,
          by simp [verifyDocument, freshState, hp, hc, hk],
          by simp [verifyDocument, freshState, hp, hc, hk]⟩
    · right; left
      simp [verifyDocument, freshState, hp, hc]

/-- C1 (counterexample): a tampered document against a valid signature
file and an intact document against a corrupted signature produce the
identical bare boolean verdict false with identical (empty) error
text, so the code does not return six distinct tagged variants. -/
theorem tampered_and_invalid_collapse :
    toyHash docHellp ≠ toyHash docHello
    ∧ toyVerify 1 (toyHash docHello) [9, 9] = false
    ∧ (verifyDocument toyCrypto 10 (freshState docHellp fileHello)).verificationResult = some false
    ∧ (verifyDocument toyCrypto 10 (freshState docHello fileHelloBadSig)).verificationResult = some false
    ∧ (verifyDocument toyCrypto 10 (freshState docHellp fileHello)).error
        = (verifyDocument toyCrypto 10 (freshState docHello fileHelloBadSig)).error := by
  decide

/-- A signature file with the signature field missing entirely. -/
def fileNoSig : Json := Json.obj
  [("documentHash", Json.str (toyHash docHello)),
   ("certificate", Json.obj
     [("subject", Json.str "alice"),
      ("publicKey", Json.bytes [1]),
      ("issuedAt", Json.num 0),
      ("expiresAt", Json.num 1000)]),
   ("timestamp", Json.num 5)]

/-- C10: from a fresh state, a null verdict together with a non-empty
error message occurs exactly when the signature file fails to parse; in
that case the error is the format message and the verdict is left null
(no false verdict is produced), while every path past a successful
parse — certificate failure, caught exception, or the signature check —
writes a non-null verdict. -/
theorem malformed_unique_null_verdict (c : Crypto) (d : Bytes) (j : Json) (now : Int) :
    (((verifyDocument c now (freshState d j)).verificationResult = none
        ∧ (verifyDocument c now (freshState d j)).error ≠ "")
      ↔ DigitalSigner.parseSignatureFile j = none)
    ∧ (DigitalSigner.parseSignatureFile j = none →
        (verifyDocument c now (freshState d j)).verificationResult = none
        ∧ (verifyDocument c now (freshState d j)).error = "Invalid signature file format")
    ∧ (∀ sig, DigitalSigner.parseSignatureFile j = some sig →
        (verifyDocument c now (freshState d j)).verificationResult ≠ none) := by
  cases hp : DigitalSigner.parseSignatureFile j with
  | none =>
    refine ⟨?_, ?_, ?_⟩
    · simp [verifyDocument, freshState, hp]
    · intro _
      simp [verifyDocument, freshState, hp]
    · intro sig hsig
      simp [hp] at hsig
  | some sig =>
    have hne : (verifyDocument c now (freshState d j)).verificationResult ≠ none := by
      by_cases hc : verifyCertificate c sig.certificate now
      · cases hk : importPublicKey c sig.certificate.publicKey with
        | none => simp [verifyDocument, freshState, hp, hc, hk]
        | some pk => simp [verifyDocument, freshState, hp, hc, hk]
      · simp [verifyDocument, freshState, hp, hc]
    refine ⟨?_, ?_, ?_⟩
    · constructor
      · intro h
        exact absurd h.1 hne
      · intro h
        simp [hp] at h
    · intro h
      simp [hp] at h
    · intro sig2 _
      exact hne

/-- C10 (witness): the concrete file missing its signature field fails
to parse and leaves a null verdict with the format error message. -/
theorem malformed_unique_null_verdict_witness :
    DigitalSigner.parseSignatureFile fileNoSig = none
    ∧ (verifyDocument toyCrypto 10 (freshState docHello fileNoSig)).verificationResult = none
    ∧ (verifyDocument toyCrypto 10 (freshState docHello fileNoSig)).error = "Invalid signature file format" :=
  ⟨by decide, (malformed_unique_null_verdict toyCrypto docHello fileNoSig 10).2.1 (by decide)⟩

/-- Certificate already expired at verification time 100. -/
def certCarolExpired : Certificate :=
  { subject := "carol", publicKey := [3], issuedAt := 0, expiresAt := 50 }

/-- Certificate inside its validity window but structurally invalid:
its subject is empty. -/
def certEmptySubject : Certificate :=
  { subject := "", publicKey := [3], issuedAt := 0, expiresAt := 1000 }

/-- Valid-signature file over docHello under the expired carol
certificate. -/
def fileCarolExpired : Json := DigitalSigner.createSignatureFile
  { documentHash := toyHash docHello, signature := toySign 3 (toyHash docHello),
    certificate := certCarolExpired, timestamp := 5 }

/-- Valid-signature file over docHello under the empty-subject
certificate. -/
def fileEmptySubject : Json := DigitalSigner.createSignatureFile
  { documentHash := toyHash docHello, signature := toySign 3 (toyHash docHello),
    certificate := certEmptySubject, timestamp := 5 }

/-- C3 (counterexample): at time 100 the carol certificate is expired
while its embedded signature is cryptographically valid, and the
empty-subject certificate is unexpired but structurally invalid; both
verifications produce the same false verdict and the same error string,
so an expired certificate does not yield an outcome distinct from a
structural certificate failure. -/
theorem expired_outcome_not_distinct :
    certCarolExpired.expiresAt < 100
    ∧ toyVerify 3 (toyHash docHello) (toySign 3 (toyHash docHello)) = true
    ∧ (certEmptySubject.issuedAt ≤ 100 ∧ (100 : Int) ≤ certEmptySubject.expiresAt)
    ∧ (verifyDocument toyCrypto 100 (freshState docHello fileCarolExpired)).verificationResult
        = (verifyDocument toyCrypto 100 (freshState docHello fileEmptySubject)).verificationResult
    ∧ (verifyDocument toyCrypto 100 (freshState docHello fileCarolExpired)).error
        = (verifyDocument toyCrypto 100 (freshState docHello fileEmptySubject)).error
    ∧ (verifyDocument toyCrypto 100 (freshState docHello fileCarolExpired)).verificationResult = some false := by
  decide

/-- C3 (amended): whenever the embedded certificate has expiresAt < now,
verification yields the certificate-failure outcome — verdict false and
the message "Invalid or expired certificate" — for every crypto
provider and hence regardless of whether the embedded signature is
cryptographically valid; this outcome is the certificate-stage failure
shared with structurally invalid certificates, not a dedicated
CertificateExpired variant. -/
theorem expiry_enforcement (c : Crypto) (d : Bytes) (j : Json)
    (sig : DocumentSignature) (now : Int)
    (hp : DigitalSigner.parseSignatureFile j = some sig)
    (hexp : sig.certificate.expiresAt < now) :
    (verifyDocument c now (freshState d j)).verificationResult = some false
    ∧ (verifyDocument c now (freshState d j)).error = "Invalid or expired certificate" := by
  have hd : decide (now ≤ sig.certificate.expiresAt) = false := by
    simp
    omega
  have hc : verifyCertificate c sig.certificate now = false := by
    simp [verifyCertificate, hd]
  simp [verifyDocument, freshState, hp, hc]

/-- C3 (amended, witness): the expired carol file at time 100 yields
verdict false with the certificate error message. -/
theorem expiry_enforcement_witness :
    (verifyDocument toyCrypto 100 (freshState docHello fileCarolExpired)).verificationResult = some false
    ∧ (verifyDocument toyCrypto 100 (freshState docHello fileCarolExpired)).error = "Invalid or expired certificate" :=
  expiry_enforcement toyCrypto docHello fileCarolExpired
    { documentHash := toyHash docHello, signature := toySign 3 (toyHash docHello),
      certificate := certCarolExpired, timestamp := 5 } 100 (by decide) (by decide)

/-- Certificate expired well before verification time 100. -/
def certDaveExpired : Certificate :=
  { subject := "dave", publicKey := [4], issuedAt := 10, expiresAt := 20 }

/-- Certificate inside its validity window at time 100 whose public-key
bytes do not parse as a key (a structural failure). -/
def certDaveBadKey : Certificate :=
  { subject := "dave", publicKey := [4, 4], issuedAt := 10, expiresAt := 2000 }

/-- Signature file over docHello under the expired dave certificate. -/
def fileDaveExpired : Json := DigitalSigner.createSignatureFile
  { documentHash := toyHash docHello, signature := toySign 4 (toyHash docHello),
    certificate := certDaveExpired, timestamp := 15 }

/-- Signature file over docHello under the unparseable-key dave
certificate. -/
def fileDaveBadKey : Json := DigitalSigner.createSignatureFile
  { documentHash := toyHash docHello, signature := toySign 4 (toyHash docHello),
    certificate := certDaveBadKey, timestamp := 15 }

/-- C6 (counterexample): a certificate that failed the time check and a
certificate that failed the structural check (unparseable public key)
render the very same single error string "Invalid or expired
certificate" with the same false verdict, so the time failure and the
structural failure are collapsed into one message rather than surfaced
as distinct CertificateExpired and CertificateMalformed outcomes. -/
theorem cert_failure_message_collapsed :
    certDaveExpired.expiresAt < 100
    ∧ toyParsePub certDaveBadKey.publicKey = none
    ∧ (certDaveBadKey.issuedAt ≤ 100 ∧ (100 : Int) ≤ certDaveBadKey.expiresAt)
    ∧ (verifyDocument toyCrypto 100 (freshState docHello fileDaveExpired)).error
        = "Invalid or expired certificate"
    ∧ (verifyDocument toyCrypto 100 (freshState docHello fileDaveBadKey)).error
        = "Invalid or expired certificate"
    ∧ (verifyDocument toyCrypto 100 (freshState docHello fileDaveExpired)).verificationResult
        = (verifyDocument toyCrypto 100 (freshState docHello fileDaveBadKey)).verificationResult := by
  decide

/-- C6 (amended): whenever the certificate stage fails — whether the
time check or the structural check failed — verification produces the
one combined outcome: verdict false and the single message "Invalid or
expired certificate"; the code never distinguishes CertificateExpired
from CertificateMalformed. -/
theorem cert_failure_single_outcome (c : Crypto) (d : Bytes) (j : Json)
    (sig : DocumentSignature) (now : Int)
    (hp : DigitalSigner.parseSignatureFile j = some sig)
    (hc : verifyCertificate c sig.certificate now = false) :
    (verifyDocument c now (freshState d j)).verificationResult = some false
    ∧ (verifyDocument c now (freshState d j)).error = "Invalid or expired certificate" := by
  simp [verifyDocument, freshState, hp, hc]

/-- C6 (amended, witness): the structurally invalid dave file at time
100 yields verdict false with the combined certificate error
message. -/
theorem cert_failure_single_outcome_witness :
    (verifyDocument toyCrypto 100 (freshState docHello fileDaveBadKey)).verificationResult = some false
    ∧ (verifyDocument toyCrypto 100 (freshState docHello fileDaveBadKey)).error = "Invalid or expired certificate" :=
  cert_failure_single_outcome toyCrypto docHello fileDaveBadKey
    { documentHash := toyHash docHello, signature := toySign 4 (toyHash docHello),
      certificate := certDaveBadKey, timestamp := 15 } 100 (by decide) (by decide)

/-- Concrete document bytes for the tamper scenarios. -/
def docAbc : Bytes := [1, 2, 3]

/-- docAbc with its last byte mutated. -/
def docAbd : Bytes := [1, 2, 4]

/-- Unexpired certificate for the erin keypair. -/
def certErin : Certificate :=
  { subject := "erin", publicKey := [5], issuedAt := 0, expiresAt := 5000 }

/-- Valid signature file over docAbc under certErin. -/
def fileErin : Json := DigitalSigner.createSignatureFile
  { documentHash := toyHash docAbc, signature := toySign 5 (toyHash docAbc),
    certificate := certErin, timestamp := 7 }

/-- Signature file over docAbc under certErin whose signature bytes are
garbage (hash intact, ECDSA check fails). -/
def fileErinBadSig : Json := DigitalSigner.createSignatureFile
  { documentHash := toyHash docAbc, signature := [7],
    certificate := certErin, timestamp := 7 }

/-- C4 (counterexample): verifying the mutated document against a valid
signature file produces exactly the same observable outcome — verdict
false, empty error — as verifying the intact document against a file
with an invalid signature, so document tampering does not return a
distinct DocumentTampered outcome. -/
theorem tamper_outcome_not_distinct :
    toyHash docAbd ≠ toyHash docAbc
    ∧ toyVerify 5 (toyHash docAbc) [7] = false
    ∧ (verifyDocument toyCrypto 10 (freshState docAbd fileErin)).verificationResult = some false
    ∧ (verifyDocument toyCrypto 10 (freshState docAbd fileErin)).error = ""
    ∧ (verifyDocument toyCrypto 10 (freshState docAbd fileErin)).verificationResult
        = (verifyDocument toyCrypto 10 (freshState docAbc fileErinBadSig)).verificationResult
    ∧ (verifyDocument toyCrypto 10 (freshState docAbd fileErin)).error
        = (verifyDocument toyCrypto 10 (freshState docAbc fileErinBadSig)).error := by
  decide

/-- C4 (amended): verifying a document whose recomputed hash differs
from the embedded hash of a decodable signature file with a valid
certificate yields the failure verdict false with empty error text —
tampering is reported as failure, but through the same bare boolean
false that an invalid signature produces, not a distinct
DocumentTampered outcome. -/
theorem tamper_yields_false_verdict (c : Crypto) (d : Bytes) (j : Json)
    (sig : DocumentSignature) (p : Nat) (now : Int)
    (hp : DigitalSigner.parseSignatureFile j = some sig)
    (hcert : verifyCertificate c sig.certificate now = true)
    (hkey : c.parsePubFn sig.certificate.publicKey = some p)
    (hmut : c.hashFn d ≠ sig.documentHash) :
    (verifyDocument c now (freshState d j)).verificationResult = some false
    ∧ (verifyDocument c now (freshState d j)).error = "" := by
  have hb : (c.hashFn d == sig.documentHash) = false := by
    simp [hmut]
  simp [verifyDocument, freshState, hp, hcert, importPublicKey, hkey,
        DigitalSigner.verifyDocumentSignature, hb]

/-- C4 (amended, witness): the mutated document against the valid erin
file yields verdict false with empty error. -/
theorem tamper_yields_false_verdict_witness :
    (verifyDocument toyCrypto 10 (freshState docAbd fileErin)).verificationResult = some false
    ∧ (verifyDocument toyCrypto 10 (freshState docAbd fileErin)).error = "" :=
  tamper_yields_false_verdict toyCrypto docAbd fileErin
    { documentHash := toyHash docAbc, signature := toySign 5 (toyHash docAbc),
      certificate := certErin, timestamp := 7 } 5 10
    (by decide) (by decide) (by decide) (by decide)

/-- C2: for any crypto provider whose hash digests are 64 hex
characters and whose verification accepts the provider's own signatures
under the matching public key, and any freshly issued certificate that
is structurally well formed and inside its validity window at
verification time, signing a document, encoding the signature file,
decoding it and verifying the same document yields the success verdict
true with no error. -/
theorem sign_verify_round_trip (c : Crypto) (d : Bytes) (k p : Nat)
    (cert : Certificate) (tsig now : Int)
    (hhex : isHex64 (c.hashFn d) = true)
    (hsubj : cert.subject ≠ "")
    (hkey : c.parsePubFn cert.publicKey = some p)
    (hiss : cert.issuedAt ≤ now) (hexp : now ≤ cert.expiresAt)
    (hver : c.verifyFn p (c.hashFn d) (c.signFn k (c.hashFn d)) = true) :
    (verifyDocument c now (freshState d
      (DigitalSigner.createSignatureFile (DigitalSigner.signDocument c d k cert tsig)))).verificationResult
      = some true
    ∧ (verifyDocument c now (freshState d
      (DigitalSigner.createSignatureFile (DigitalSigner.signDocument c d k cert tsig)))).error = "" := by
  have hp : DigitalSigner.parseSignatureFile
      (DigitalSigner.createSignatureFile (DigitalSigner.signDocument c d k cert tsig))
      = some (DigitalSigner.signDocument c d k cert tsig) :=
    parse_create _ hhex
  have hcert : verifyCertificate c cert now = true := by
    simp [verifyCertificate, hkey, hiss, hexp, hsubj]
  simp only [verifyDocument, freshState]
  rw [hp]
  simp [DigitalSigner.signDocument, hcert, importPublicKey, hkey,
        DigitalSigner.verifyDocumentSignature, hver]

/-- C2 (witness): the concrete round trip over docHello with the alice
certificate and the toy provider verifies successfully. -/
theorem sign_verify_round_trip_witness :
    (verifyDocument toyCrypto 10 (freshState docHello
      (DigitalSigner.createSignatureFile (DigitalSigner.signDocument toyCrypto docHello 1 certAlice 5)))).verificationResult
      = some true
    ∧ (verifyDocument toyCrypto 10 (freshState docHello
      (DigitalSigner.createSignatureFile (DigitalSigner.signDocument toyCrypto docHello 1 certAlice 5)))).error = "" :=
  sign_verify_round_trip toyCrypto docHello 1 1 certAlice 5 10
    (by decide) (by decide) (by decide) (by decide) (by decide) (by decide)

/-- Field list whose documentHash string is shorter than 64
characters. -/
def fieldsShortHash : List (String × Json) :=
  [("documentHash", Json.str "abcd"), ("signature", Json.bytes [1]),
   ("certificate", Json.obj []), ("timestamp", Json.num 0)]

/-- Field list whose documentHash field has the wrong type (a
number). -/
def fieldsNumHash : List (String × Json) :=
  [("documentHash", Json.num 7), ("signature", Json.bytes [1])]

/-- C5: whenever the signature file fails to decode, verification (a
total function — no exception can escape) only sets the format error
message and leaves the rest of the state unchanged; and a file missing
its signature field, a file whose documentHash string is not 64
characters, and a file whose documentHash has the wrong type all fail
to decode. -/
theorem malformed_file_resilience :
    (∀ (c : Crypto) (d : Bytes) (j : Json) (now : Int) (s : SignerState),
      s.selectedFile = some d → s.signatureFile = some j →
      DigitalSigner.parseSignatureFile j = none →
      verifyDocument c now s = { s with error := "Invalid signature file format" })
    ∧ (∀ fields, lookupField fields "signature" = none →
      DigitalSigner.parseSignatureFile (Json.obj fields) = none)
    ∧ (∀ fields dh, lookupField fields "documentHash" = some (Json.str dh) →
      dh.length ≠ 64 → DigitalSigner.parseSignatureFile (Json.obj fields) = none)
    ∧ (∀ fields n, lookupField fields "documentHash" = some (Json.num n) →
      DigitalSigner.parseSignatureFile (Json.obj fields) = none) := by
  refine ⟨?_, ?_, ?_, ?_⟩
  · intro c d j now s hsel hsig hp
    cases s with
    | mk sel sf ds vr err =>
      simp only at hsel hsig
      subst hsel
      subst hsig
      simp [verifyDocument, hp]
  · intro fields hs
    simp only [DigitalSigner.parseSignatureFile]
    cases hdh : lookupField fields "documentHash" with
    | none => simp
    | some v =>
      cases v with
      | str dh =>
        by_cases hhex : isHex64 dh
        · simp [asStr, hhex, hs]
        · simp [asStr, hhex]
      | num n => simp [asStr]
      | bytes b => simp [asStr]
      | obj o => simp [asStr]
  · intro fields dh hdh hlen
    have hhex : isHex64 dh = false := by
      simp only [isHex64, Bool.and_eq_false_iff]
      left
      simpa using hlen
    simp only [DigitalSigner.parseSignatureFile]
    rw [hdh]
    simp [asStr, hhex]
  · intro fields n hdh
    simp only [DigitalSigner.parseSignatureFile]
    rw [hdh]
    simp [asStr]

/-- C5 (witness): the concrete malformed files are rejected with the
format error and a decode failure. -/
theorem malformed_file_resilience_witness :
    verifyDocument toyCrypto 10 (freshState docHello fileNoSig)
      = { freshState docHello fileNoSig with error := "Invalid signature file format" }
    ∧ DigitalSigner.parseSignatureFile fileNoSig = none
    ∧ DigitalSigner.parseSignatureFile (Json.obj fieldsShortHash) = none
    ∧ DigitalSigner.parseSignatureFile (Json.obj fieldsNumHash) = none :=
  ⟨malformed_file_resilience.1 toyCrypto docHello fileNoSig 10
      (freshState docHello fileNoSig) rfl rfl (by decide),
   malformed_file_resilience.2.1 _ rfl,
   malformed_file_resilience.2.2.1 fieldsShortHash "abcd" rfl (by decide),
   malformed_file_resilience.2.2.2 fieldsNumHash 7 rfl⟩

/-- The certificate check consults the crypto provider only through
public-key parsing; providers agreeing on parsePubFn agree on
certificate validity. -/
theorem verifyCertificate_congr (c c' : Crypto) (cert : Certificate) (now : Int)
    (hpp : c.parsePubFn = c'.parsePubFn) :
    verifyCertificate c cert now = verifyCertificate c' cert now := by
  simp [verifyCertificate, hpp]

/-- Toy provider with the same hashing and key parsing but a different
ECDSA verifier. -/
def toyCryptoAltVerify : Crypto :=
  { hashFn := toyHash, signFn := toySign,
    verifyFn := fun _ _ _ => true, parsePubFn := toyParsePub }

/-- Toy provider with the same key parsing but different hashing and
ECDSA verification. -/
def toyCryptoAltHash : Crypto :=
  { hashFn := fun _ => "deadbeef", signFn := toySign,
    verifyFn := fun _ _ _ => false, parsePubFn := toyParsePub }

/-- C7: the pipeline fails fast in the stage order decode, certificate
check, hash comparison, signature check — when decoding fails the
result is the same for any crypto provider (no later stage contributes);
when the certificate check fails the result is independent of the
hashing and signature primitives; when the recomputed hash mismatches
the result is independent of the signature primitive; and only when the
first three stages pass is the verdict the value of the ECDSA check. -/
theorem pipeline_short_circuit :
    (∀ (c c' : Crypto) (d : Bytes) (j : Json) (now : Int),
      DigitalSigner.parseSignatureFile j = none →
      verifyDocument c now (freshState d j) = verifyDocument c' now (freshState d j))
    ∧ (∀ (c c' : Crypto) (d : Bytes) (j : Json) (sig : DocumentSignature) (now : Int),
      c.parsePubFn = c'.parsePubFn →
      DigitalSigner.parseSignatureFile j = some sig →
      verifyCertificate c sig.certificate now = false →
      verifyDocument c now (freshState d j) = verifyDocument c' now (freshState d j))
    ∧ (∀ (c c' : Crypto) (d : Bytes) (j : Json) (sig : DocumentSignature) (now : Int),
      c.parsePubFn = c'.parsePubFn →
      c.hashFn = c'.hashFn →
      DigitalSigner.parseSignatureFile j = some sig →
      c.hashFn d ≠ sig.documentHash →
      verifyDocument c now (freshState d j) = verifyDocument c' now (freshState d j))
    ∧ (∀ (c : Crypto) (d : Bytes) (j : Json) (sig : DocumentSignature) (p : Nat) (now : Int),
      DigitalSigner.parseSignatureFile j = some sig →
      verifyCertificate c sig.certificate now = true →
      c.parsePubFn sig.certificate.publicKey = some p →
      c.hashFn d = sig.documentHash →
      (verifyDocument c now (freshState d j)).verificationResult
        = some (c.verifyFn p (c.hashFn d) sig.signature)) := by
  refine ⟨?_, ?_, ?_, ?_⟩
  · intro c c' d j now hp
    simp [verifyDocument, freshState, hp]
  · intro c c' d j sig now hpp hp hc
    have hc' : verifyCertificate c' sig.certificate now = false := by
      rw [← verifyCertificate_congr c c' sig.certificate now hpp]
      exact hc
    simp [verifyDocument, freshState, hp, hc, hc']
  · intro c c' d j sig now hpp hh hp hmut
    have hb : (c.hashFn d == sig.documentHash) = false := by
      simp [hmut]
    have hb' : (c'.hashFn d == sig.documentHash) = false := by
      rw [← hh]
      exact hb
    cases hc : verifyCertificate c sig.certificate now with
    | false =>
      have hc' : verifyCertificate c' sig.certificate now = false := by
        rw [← verifyCertificate_congr c c' sig.certificate now hpp]
        exact hc
      simp [verifyDocument, freshState, hp, hc, hc']
    | true =>
      have hc' : verifyCertificate c' sig.certificate now = true := by
        rw [← verifyCertificate_congr c c' sig.certificate now hpp]
        exact hc
      cases hk : c.parsePubFn sig.certificate.publicKey with
      | none =>
        have hk' : c'.parsePubFn sig.certificate.publicKey = none := by
          rw [← hpp]
          exact hk
        simp [verifyDocument, freshState, hp, hc, hc', importPublicKey, hk, hk']
      | some p =>
        have hk' : c'.parsePubFn sig.certificate.publicKey = some p := by
          rw [← hpp]
          exact hk
        simp [verifyDocument, freshState, hp, hc, hc', importPublicKey, hk, hk',
              DigitalSigner.verifyDocumentSignature, hb, hb']
  · intro c d j sig p now hp hc hk hhash
    simp [verifyDocument, freshState, hp, hc, importPublicKey, hk,
          DigitalSigner.verifyDocumentSignature, hhash]

/-- C7 (witness): concrete instantiations of all four short-circuit
facts — a malformed file gives the same state under providers differing
everywhere, a certificate failure gives the same state under providers
differing in hashing and verification, a hash mismatch gives the same
state under providers differing in verification, and an all-stages-pass
run returns the ECDSA verdict. -/
theorem pipeline_short_circuit_witness :
    verifyDocument toyCrypto 10 (freshState docHello fileNoSig)
      = verifyDocument toyCryptoAltHash 10 (freshState docHello fileNoSig)
    ∧ verifyDocument toyCrypto 100 (freshState docHello fileCarolExpired)
      = verifyDocument toyCryptoAltHash 100 (freshState docHello fileCarolExpired)
    ∧ verifyDocument toyCrypto 10 (freshState docAbd fileErin)
      = verifyDocument toyCryptoAltVerify 10 (freshState docAbd fileErin)
    ∧ (verifyDocument toyCrypto 10 (freshState docHello fileHello)).verificationResult
      = some (toyCrypto.verifyFn 1 (toyCrypto.hashFn docHello) sigHello.signature) :=
  ⟨pipeline_short_circuit.1 toyCrypto toyCryptoAltHash docHello fileNoSig 10 (by decide),
   pipeline_short_circuit.2.1 toyCrypto toyCryptoAltHash docHello fileCarolExpired
     { documentHash := toyHash docHello, signature := toySign 3 (toyHash docHello),
       certificate := certCarolExpired, timestamp := 5 } 100 rfl (by decide) (by decide),
   pipeline_short_circuit.2.2.1 toyCrypto toyCryptoAltVerify docAbd fileErin
     { documentHash := toyHash docAbc, signature := toySign 5 (toyHash docAbc),
       certificate := certErin, timestamp := 7 } 10 rfl rfl (by decide) (by decide),
   pipeline_short_circuit.2.2.2 toyCrypto docHello fileHello sigHello 1 10
     (by decide) (by decide) (by decide) (by decide)⟩

/-- C8: with a document selected, signing with an absent private key or
an absent certificate fails before any cryptographic work — the failure
state carries the key-unavailable (respectively certificate-unavailable)
error, the displayed signature record is untouched, no signature file is
emitted, and the result is identical for any crypto provider and any
clock; with both present, the produced record is the complete four-field
DocumentSignature and its encoding is emitted. -/
theorem sign_atomicity :
    (∀ (c c' : Crypto) (now now' : Int) (s : SignerState) (d : Bytes)
        (cert : Option Certificate),
      s.selectedFile = some d →
      (signDocument c none cert now s).1.documentSignature = s.documentSignature
      ∧ (signDocument c none cert now s).2 = none
      ∧ (signDocument c none cert now s).1.error
          = "Signing key not available. Please refresh and try again."
      ∧ signDocument c none cert now s = signDocument c' none cert now' s)
    ∧ (∀ (c c' : Crypto) (now now' : Int) (s : SignerState) (d : Bytes) (k : Nat),
      s.selectedFile = some d →
      (signDocument c (some k) none now s).1.documentSignature = s.documentSignature
      ∧ (signDocument c (some k) none now s).2 = none
      ∧ (signDocument c (some k) none now s).1.error
          = "Digital certificate not available. Please ensure you have set a username."
      ∧ signDocument c (some k) none now s = signDocument c' (some k) none now' s)
    ∧ (∀ (c : Crypto) (now : Int) (s : SignerState) (d : Bytes) (k : Nat)
        (cert : Certificate),
      s.selectedFile = some d →
      (signDocument c (some k) (some cert) now s).1.documentSignature
        = some { documentHash := c.hashFn d, signature := c.signFn k (c.hashFn d),
                 certificate := cert, timestamp := now }
      ∧ (signDocument c (some k) (some cert) now s).1.error = ""
      ∧ (signDocument c (some k) (some cert) now s).2
        = some (DigitalSigner.createSignatureFile
            { documentHash := c.hashFn d, signature := c.signFn k (c.hashFn d),
              certificate := cert, timestamp := now })) := by
  refine ⟨?_, ?_, ?_⟩
  · intro c c' now now' s d cert hsel
    simp [signDocument, hsel]
  · intro c c' now now' s d k hsel
    simp [signDocument, hsel]
  · intro c now s d k cert hsel
    simp [signDocument, hsel, DigitalSigner.signDocument]

/-- C8 (witness): concretely, signing without a private key or without
a certificate emits nothing and keeps the empty signature record, while
signing with both present yields the full concrete record. -/
theorem sign_atomicity_witness :
    (signDocument toyCrypto none (some certAlice) 5 (freshState docHello fileHello)).1.documentSignature = none
    ∧ (signDocument toyCrypto none (some certAlice) 5 (freshState docHello fileHello)).2 = none
    ∧ (signDocument toyCrypto (some 1) none 5 (freshState docHello fileHello)).2 = none
    ∧ (signDocument toyCrypto (some 1) (some certAlice) 5 (freshState docHello fileHello)).1.documentSignature
        = some { documentHash := toyHash docHello, signature := toySign 1 (toyHash docHello),
                 certificate := certAlice, timestamp := 5 } :=
  ⟨(sign_atomicity.1 toyCrypto toyCrypto 5 5 (freshState docHello fileHello) docHello
      (some certAlice) rfl).1,
   (sign_atomicity.1 toyCrypto toyCrypto 5 5 (freshState docHello fileHello) docHello
      (some certAlice) rfl).2.1,
   (sign_atomicity.2.1 toyCrypto toyCrypto 5 5 (freshState docHello fileHello) docHello
      1 rfl).2.1,
   (sign_atomicity.2.2 toyCrypto 5 (freshState docHello fileHello) docHello
      1 certAlice rfl).1⟩
